import Mathlib

/-!
Shallow embedding of `youtube_subtitles_server.py`: the text-output parsing
and normalization layer (language listing, SRT cleanup, video-info
formatting) and the availability-gated operation facade, with the external
tool and the filesystem modelled as an explicit environment and the
side effects of one operation call recorded as an event trace.
-/

namespace YoutubeSubtitles

/-- Character class matched by the Python regex escape for whitespace (ASCII range), also the set stripped by the Python string strip method. -/
def isSpaceChar (c : Char) : Bool :=
  c = ' ' || c = '\t' || c = '\n' || c = '\r' || c = '\x0b' || c = '\x0c'

/-- Character class matched by the Python regex escape for word characters (ASCII range). -/
def isWordChar (c : Char) : Bool :=
  c.isAlphanum || c = '_'

/-- Python `str.strip()`: drop whitespace from both ends. -/
def pyStrip (s : String) : String :=
  String.mk (((s.toList.dropWhile isSpaceChar).reverse.dropWhile isSpaceChar).reverse)

/-- Worker for `splitlines`, accumulating the current line in reverse. -/
def splitlinesGo : List Char → List Char → List String
  | [], [] => []
  | [], acc => [String.mk acc.reverse]
  | '\r' :: '\n' :: rest, acc => String.mk acc.reverse :: splitlinesGo rest []
  | '\r' :: rest, acc => String.mk acc.reverse :: splitlinesGo rest []
  | '\n' :: rest, acc => String.mk acc.reverse :: splitlinesGo rest []
  | c :: rest, acc => splitlinesGo rest (c :: acc)

/-- Python `str.splitlines()` restricted to the line breaks `\n`, `\r`,
`\r\n`: no entry for a trailing line break, `[]` on the empty string. -/
def splitlines (s : String) : List String :=
  splitlinesGo s.toList []

/-- Python `str.split(chr)` on a single separator character:
always at least one (possibly empty) field. -/
def pySplitOn (sep : Char) (s : String) : List String :=
  s.toList.foldr
    (fun c fields =>
      match fields with
      | [] => [[c]]
      | f :: fs => if c = sep then [] :: f :: fs else (c :: f) :: fs)
    [[]]
  |>.map String.mk

/-- Whether `pat` is a leading segment of `cs`. -/
def leadsList : List Char → List Char → Bool
  | [], _ => true
  | _ :: _, [] => false
  | p :: ps, c :: cs => p = c && leadsList ps cs

/-- Whether `pat` occurs as a contiguous segment of `cs`
(the Python membership test `pat in s` on strings). -/
def occursIn (pat : List Char) : List Char → Bool
  | [] => pat.isEmpty
  | c :: rest => leadsList pat (c :: rest) || occursIn pat rest

/-- Whether a line contains the section marker, i.e. the Python test
`"Available subtitles" in line`. -/
def hasMarker (line : String) : Bool :=
  occursIn "Available subtitles".toList line.toList

/-- The match of the Python call `re.match` with pattern
`\s*(\w+)\s+(\w+)?\s*(.*)` against `line`,
returning `(group 1, group 3)` on success. Because `\s` and `\w` are
disjoint and the trailing `(.*)` always succeeds, the greedy match is
deterministic: maximal whitespace, then a non-empty maximal word-character
run (group 1), then a non-empty maximal whitespace run, then a possibly
empty maximal word-character run (group 2, discarded), then maximal
whitespace, then the remainder (group 3). -/
def parseLangLine (line : String) : Option (String × String) :=
  let cs1 := line.toList.dropWhile isSpaceChar
  let g1 := cs1.takeWhile isWordChar
  if g1.isEmpty then none
  else
    let cs2 := cs1.dropWhile isWordChar
    if (cs2.takeWhile isSpaceChar).isEmpty then none
    else
      let cs3 := cs2.dropWhile isSpaceChar
      let g3 := (cs3.dropWhile isWordChar).dropWhile isSpaceChar
      some (String.mk g1, String.mk g3)

/-- One parsed language line: `lang_code = match.group(1)`,
`lang_name = match.group(3).strip()`. -/
structure SubtitleLanguageEntry where
  code : String
  displayName : String
deriving DecidableEq, Repr

/-- Build the entry recorded for a matched line. -/
def langEntryOfMatch : String × String → SubtitleLanguageEntry
  | (c, n) => ⟨c, pyStrip n⟩

/-- The `for line in output.splitlines()` loop of `list_subtitle_languages`,
with the `in_subtitles_section` flag as explicit state. -/
def parseLines : List String → Bool → List SubtitleLanguageEntry
  | [], _ => []
  | line :: rest, inSec =>
    if hasMarker line then parseLines rest true
    else if inSec && !(pyStrip line).isEmpty then
      match parseLangLine line with
      | some m => langEntryOfMatch m :: parseLines rest inSec
      | none => parseLines rest inSec
    else parseLines rest inSec

/-- The whole language-listing parse of a tool output. -/
def parseLangs (output : String) : List SubtitleLanguageEntry :=
  parseLines (splitlines output) false

/-- What the parser does with one line once the section flag is set:
marker lines and blank lines contribute nothing, every other line is
matched against the pattern. -/
def entryOfLine (line : String) : Option SubtitleLanguageEntry :=
  if hasMarker line then none
  else if (pyStrip line).isEmpty then none
  else (parseLangLine line).map langEntryOfMatch

/-- Expect one literal character. -/
def expectChar (c : Char) : List Char → Option (List Char)
  | [] => none
  | x :: rest => if x = c then some rest else none

/-- Expect exactly `n` digit characters (Python `\d{n}`). -/
def expectDigits : Nat → List Char → Option (List Char)
  | 0, cs => some cs
  | _ + 1, [] => none
  | n + 1, c :: rest => if c.isDigit then expectDigits n rest else none

/-- Expect a literal character sequence. -/
def expectLit : List Char → List Char → Option (List Char)
  | [], cs => some cs
  | _ :: _, [] => none
  | p :: ps, c :: cs => if c = p then expectLit ps cs else none

/-- Expect `\d\x7b2\x7d:\d\x7b2\x7d:\d\x7b2\x7d,\d\x7b3\x7d`, an SRT timestamp. -/
def expectTimestamp (cs : List Char) : Option (List Char) :=
  match expectDigits 2 cs with
  | none => none
  | some cs1 =>
    match expectChar ':' cs1 with
    | none => none
    | some cs2 =>
      match expectDigits 2 cs2 with
      | none => none
      | some cs3 =>
        match expectChar ':' cs3 with
        | none => none
        | some cs4 =>
          match expectDigits 2 cs4 with
          | none => none
          | some cs5 =>
            match expectChar ',' cs5 with
            | none => none
            | some cs6 => expectDigits 3 cs6

/-- Match of the first substitution pattern
`\d+\n\d\x7b2\x7d:\d\x7b2\x7d:\d\x7b2\x7d,\d\x7b3\x7d --> \d\x7b2\x7d:\d\x7b2\x7d:\d\x7b2\x7d,\d\x7b3\x7d\n`
at the head of `cs`, returning the rest after the match. `\d+` is forced
to the maximal digit run because `\d` cannot match the following `\n`. -/
def tryTs : List Char → Option (List Char)
  | [] => none
  | c :: rest =>
    if c.isDigit then
      match expectChar '\n' ((c :: rest).dropWhile Char.isDigit) with
      | none => none
      | some cs2 =>
        match expectTimestamp cs2 with
        | none => none
        | some cs3 =>
          match expectLit (' ' :: '-' :: '-' :: '>' :: ' ' :: []) cs3 with
          | none => none
          | some cs4 =>
            match expectTimestamp cs4 with
            | none => none
            | some cs5 => expectChar '\n' cs5
    else none

/-- Scan of the first substitution (timestamp-block pattern, empty
replacement): at each position try the
timestamp-block match; on success drop the matched span and resume after
it, otherwise keep the character. Fuel is initialized to the input length;
every step consumes at least one character per fuel unit. -/
def removeTsFuel : Nat → List Char → List Char
  | 0, _ => []
  | _ + 1, [] => []
  | fuel + 1, c :: rest =>
    match tryTs (c :: rest) with
    | some rest2 => removeTsFuel fuel rest2
    | none => c :: removeTsFuel fuel rest

/-- Remove every sequence-number + timestamp block. -/
def removeTs (cs : List Char) : List Char :=
  removeTsFuel cs.length cs

/-- Walk the maximal whitespace run at the head of `cs`, remembering the
rest after the last `\n` seen inside it: the greedy match of `\s*\n`
(having already consumed an initial `\n`) ends at that last `\n`. -/
def blankRunGo : List Char → Option (List Char) → Option (List Char)
  | [], best => best
  | c :: rest, best =>
    if c = '\n' then blankRunGo rest (some rest)
    else if isSpaceChar c then blankRunGo rest best
    else best

/-- Greedy match of `\s*\n` against the head of `cs`: `some rest` when the
maximal whitespace run at the head contains a `\n`, with `rest` what
follows the last such `\n`. -/
def blankRunRest (cs : List Char) : Option (List Char) :=
  blankRunGo cs none

/-- Scan of the second substitution (pattern `\n\s*\n`, replacement one
newline): at each `\n`, if the following
maximal whitespace run contains another `\n`, the whole span through the
last such `\n` is replaced by a single `\n` and scanning resumes after
it. Fuel is initialized to the input length. -/
def collapseBlankFuel : Nat → List Char → List Char
  | 0, _ => []
  | _ + 1, [] => []
  | fuel + 1, c :: rest =>
    if c = '\n' then
      match blankRunRest rest with
      | some rest2 => '\n' :: collapseBlankFuel fuel rest2
      | none => c :: collapseBlankFuel fuel rest
    else c :: collapseBlankFuel fuel rest

/-- Collapse every blank-line run to a single newline. -/
def collapseBlank (cs : List Char) : List Char :=
  collapseBlankFuel cs.length cs

/-- The SRT cleanup of `download_subtitles`: remove sequence-number +
timestamp blocks, then collapse blank-line runs. -/
def cleanSrt (s : String) : String :=
  String.mk (collapseBlank (removeTs s.toList))

/-- No position of `cs` starts a sequence-number + timestamp block. -/
def noTsMatch : List Char → Bool
  | [] => true
  | c :: rest => (tryTs (c :: rest)).isNone && noTsMatch rest

/-- No position of `cs` starts a blank-line run `\n\s*\n`. -/
def noBlankMatch : List Char → Bool
  | [] => true
  | c :: rest => (if c = '\n' then (blankRunRest rest).isNone else true) && noBlankMatch rest

/-- Already-clean SRT text: neither cleanup pattern matches anywhere. -/
def IsCleanSrt (s : String) : Bool :=
  noTsMatch s.toList && noBlankMatch s.toList

/-- The upload-date reformat of `get_video_info`: when the field is
exactly 8 characters long, insert hyphens as `YYYY-MM-DD` (the slices
`[:4]`, `[4:6]`, `[6:8]`); otherwise pass the field through unchanged. -/
def formatUploadDate (d : String) : String :=
  if d.length = 8 then
    String.mk (d.toList.take 4) ++ "-" ++ String.mk ((d.toList.drop 4).take 2)
      ++ "-" ++ String.mk ((d.toList.drop 6).take 2)
  else d

/-- The parsing step of `get_video_info`: strip the output, split on
newlines, and when at least five lines are present build the info text
from the first five (title, duration, channel, reformatted upload date,
views), discarding the rest; otherwise embed the raw output in a
diagnostic message. -/
def getVideoInfoParse (output : String) : String :=
  match pySplitOn '\n' (pyStrip output) with
  | title :: duration :: channel :: upload_date :: views :: _ =>
    "Title: " ++ title ++ "\nDuration: " ++ duration ++ "\nChannel: " ++ channel
      ++ "\nUpload Date: " ++ formatUploadDate upload_date ++ "\nViews: " ++ views
  | _ => "Couldn't parse video information: " ++ output

/-- One observable side effect of an operation: a yt-dlp invocation (with
its working directory), or creation/removal of the scratch directory. -/
inductive Event where
  | invoke (args : List String) (cwd : Option String)
  | mkTempDir (dir : String)
  | rmTempDir (dir : String)
deriving DecidableEq, Repr

/-- The external world an operation call runs against: the yt-dlp process
runner (stdout on success, the RuntimeError message on failure), the
filesystem of the scratch area, and the name the temporary-directory
facility hands out for this call. -/
structure Env where
  run : List String → Option String → Except String String
  fileExists : String → Bool
  readFile : String → String
  tempDir : String

/-- The fixed advisory returned by every operation when yt-dlp was not
found at startup. -/
def ADVISORY : String :=
  "Error: yt-dlp is not installed. Please install it with: pip install yt-dlp"

/-- Argument vector of the listing invocation. -/
def listSubsArgs (url : String) : List String :=
  ["--skip-download", "--list-subs", url]

/-- The `list_subtitle_languages` operation: availability gate, one
listing invocation, parse, and the empty-result policy. The second
component is the trace of observable side effects. -/
def list_subtitle_languages (available : Bool) (env : Env) (url : String) :
    String × List Event :=
  if !available then (ADVISORY, [])
  else
    match env.run (listSubsArgs url) none with
    | .error e => ("Error listing subtitle languages: " ++ e,
        [Event.invoke (listSubsArgs url) none])
    | .ok output =>
      let languages := parseLangs output
      if languages.isEmpty then
        ("No subtitles found for this video.", [Event.invoke (listSubsArgs url) none])
      else
        ("Available subtitle languages:\n" ++
            String.intercalate "\n"
              (languages.map (fun l => l.code ++ ": " ++ l.displayName)),
          [Event.invoke (listSubsArgs url) none])

/-- Argument vector of the download invocation for a given output stem. -/
def dlArgs (output_filename url lang : String) : List String :=
  ["--skip-download", "--write-auto-sub", "--sub-lang=" ++ lang,
    "--convert-subs=srt", "--output=" ++ output_filename, url]

/-- `os.path.join` on POSIX for one join step. -/
def os_path_join (a b : String) : String :=
  if b.startsWith "/" then b
  else if a.endsWith "/" || a.isEmpty then a ++ b
  else a ++ "/" ++ b

/-- The expected subtitle file name: output stem, then the language code
and the `.srt` extension. -/
def subtitleFileName (temp_dir lang : String) : String :=
  os_path_join temp_dir "subtitles" ++ "." ++ lang ++ ".srt"

/-- Body of the `with tempfile.TemporaryDirectory()` block of
`download_subtitles`: one download invocation, existence check of the
expected subtitle file, SRT cleanup of its content; run failures are
caught and turned into a textual error result. -/
def download_body (env : Env) (url lang : String) : String × List Event :=
  let args := dlArgs (os_path_join env.tempDir "subtitles") url lang
  match env.run args (some env.tempDir) with
  | .error e => ("Error downloading subtitles: " ++ e,
      [Event.invoke args (some env.tempDir)])
  | .ok _ =>
    if env.fileExists (os_path_join env.tempDir (subtitleFileName env.tempDir lang)) then
      (cleanSrt (env.readFile (os_path_join env.tempDir (subtitleFileName env.tempDir lang))),
        [Event.invoke args (some env.tempDir)])
    else
      ("No subtitles found for language: " ++ lang,
        [Event.invoke args (some env.tempDir)])

/-- The `download_subtitles` operation: availability gate, then the body
inside a scoped temporary directory, created before the body and removed
after it on every path, as the Python `with tempfile.TemporaryDirectory()`
statement guarantees. -/
def download_subtitles (available : Bool) (env : Env) (url : String)
    (lang : String := "en") : String × List Event :=
  if !available then (ADVISORY, [])
  else
    ((download_body env url lang).1,
      Event.mkTempDir env.tempDir ::
        (download_body env url lang).2 ++ [Event.rmTempDir env.tempDir])

/-- Argument vector of the info invocation: the fixed five-field print
template. -/
def infoArgs (url : String) : List String :=
  ["--skip-download", "--print",
    "%(title)s\n%(duration_string)s\n%(channel)s\n%(upload_date)s\n%(view_count)s",
    url]

/-- The `get_video_info` operation: availability gate, one info
invocation, parse of the five-line output. -/
def get_video_info (available : Bool) (env : Env) (url : String) :
    String × List Event :=
  if !available then (ADVISORY, [])
  else
    match env.run (infoArgs url) none with
    | .error e => ("Error getting video info: " ++ e, [Event.invoke (infoArgs url) none])
    | .ok output => (getVideoInfoParse output, [Event.invoke (infoArgs url) none])

/-- Fixture listing output: the marker line followed by the two language
lines of the specification. -/
def c2Fixture : String :=
  "Available subtitles for video:\nen       vtt, srt  English\nfr       vtt, srt  French"

/-- A concrete environment whose runner always succeeds with the given
output, whose scratch filesystem is empty, and whose scratch directory
has a fixed name. -/
def constEnv (out : String) : Env where
  run := fun _ _ => .ok out
  fileExists := fun _ => false
  readFile := fun _ => ""
  tempDir := "/tmp/scratch"

/-- Rebuilding a string from its character list gives the string back. -/
theorem string_mk_toList (s : String) : String.mk s.toList = s := rfl

/-- With the section flag still unset, lines without the marker are
skipped and leave the flag unset. -/
theorem parseLines_skip (pre rest : List String)
    (h : ∀ l ∈ pre, hasMarker l = false) :
    parseLines (pre ++ rest) false = parseLines rest false := by
  induction pre with
  | nil => rfl
  | cons p pre ih =>
    have hp : hasMarker p = false := h p (by simp)
    have h2 : ∀ l ∈ pre, hasMarker l = false := fun l hl => h l (by simp [hl])
    simp [parseLines, hp, ih h2]

/-- With the section flag set, the rest of the loop is exactly a
`filterMap` of `entryOfLine` over the remaining lines: the flag never
resets and every line is examined. -/
theorem parseLines_true (lines : List String) :
    parseLines lines true = lines.filterMap entryOfLine := by
  induction lines with
  | nil => rfl
  | cons l rest ih =>
    by_cases hm : hasMarker l = true
    · simp [parseLines, entryOfLine, hm, ih]
    · have hm2 : hasMarker l = false := by simpa using hm
      by_cases hb : (pyStrip l).isEmpty = true
      · simp [parseLines, entryOfLine, hm2, hb, ih]
      · cases hp : parseLangLine l with
        | some m => simp [parseLines, entryOfLine, hm2, hb, hp, ih]
        | none => simp [parseLines, entryOfLine, hm2, hb, hp, ih]

/-- Blank lines contribute no entries. -/
theorem filterMap_blank (post : List String) (h : ∀ l ∈ post, pyStrip l = "") :
    post.filterMap entryOfLine = [] := by
  induction post with
  | nil => rfl
  | cons l rest ih =>
    have hl : pyStrip l = "" := h l (by simp)
    have hnone : entryOfLine l = none := by
      unfold entryOfLine
      rw [hl]
      split <;> rfl
    simp [hnone, ih fun l hl2 => h l (by simp [hl2])]

/-- When the timestamp-block pattern matches nowhere, the first
substitution scan is the identity (given enough fuel). -/
theorem removeTsFuel_clean (fuel : Nat) :
    ∀ cs : List Char, noTsMatch cs = true → cs.length ≤ fuel →
      removeTsFuel fuel cs = cs := by
  induction fuel with
  | zero =>
    intro cs h hl
    cases cs with
    | nil => rfl
    | cons c rest => simp at hl
  | succ n ih =>
    intro cs h hl
    cases cs with
    | nil => rfl
    | cons c rest =>
      rw [noTsMatch, Bool.and_eq_true, Option.isNone_iff_eq_none] at h
      rw [removeTsFuel, h.1]
      simp only [List.length_cons, Nat.succ_le_succ_iff] at hl
      rw [ih rest h.2 hl]

/-- When the blank-run pattern matches nowhere, the second substitution
scan is the identity (given enough fuel). -/
theorem collapseBlankFuel_clean (fuel : Nat) :
    ∀ cs : List Char, noBlankMatch cs = true → cs.length ≤ fuel →
      collapseBlankFuel fuel cs = cs := by
  induction fuel with
  | zero =>
    intro cs h hl
    cases cs with
    | nil => rfl
    | cons c rest => simp at hl
  | succ n ih =>
    intro cs h hl
    cases cs with
    | nil => rfl
    | cons c rest =>
      rw [noBlankMatch, Bool.and_eq_true] at h
      simp only [List.length_cons, Nat.succ_le_succ_iff] at hl
      rw [collapseBlankFuel]
      by_cases hc : c = '\n'
      · rw [if_pos hc] at h ⊢
        rw [Option.isNone_iff_eq_none] at h
        rw [h.1, hc, ih rest h.2 hl]
      · rw [if_neg hc, ih rest h.2 hl]

/-- The SRT cleanup fixes every already-clean string. -/
theorem cleanSrt_clean_fix (s : String) (h : IsCleanSrt s = true) :
    cleanSrt s = s := by
  rw [IsCleanSrt, Bool.and_eq_true] at h
  have hr : removeTs s.toList = s.toList :=
    removeTsFuel_clean s.toList.length s.toList h.1 le_rfl
  have hc : collapseBlank s.toList = s.toList :=
    collapseBlankFuel_clean s.toList.length s.toList h.2 le_rfl
  rw [cleanSrt, hr, hc, string_mk_toList]

/-- C1: for every environment, URL and language, when the availability
flag recorded at startup is false, each of the three operations returns
exactly the fixed advisory string about the missing yt-dlp tool, and its
side-effect trace is empty — in particular the process runner is never
invoked. -/
theorem c1_availability_gate (env : Env) (url lang : String) :
    list_subtitle_languages false env url = (ADVISORY, []) ∧
    download_subtitles false env url lang = (ADVISORY, []) ∧
    get_video_info false env url = (ADVISORY, []) :=
  ⟨rfl, rfl, rfl⟩

/-- C2 counterexample: on the fixture output (marker line, then
`en       vtt, srt  English` and `fr       vtt, srt  French`) the parser
does not return the entries with display names `English` and `French`:
the optional second capture group only swallows `vtt`, so the display
name kept from group 3 is `, srt  English` (resp. `, srt  French`). -/
theorem c2_counterexample :
    parseLangs c2Fixture ≠
      [⟨"en", "English"⟩, ⟨"fr", "French"⟩] := by
  decide

/-- C2 (amended): on the fixture output the parser returns exactly the
two entries with codes `en`, `fr` and display names `, srt  English`,
`, srt  French`, in input order, and any lines before the marker line
produce no entries. -/
theorem c2_fixture_parse :
    parseLangs c2Fixture =
      [⟨"en", ", srt  English"⟩, ⟨"fr", ", srt  French"⟩] ∧
    ∀ pre : List String, (∀ l ∈ pre, hasMarker l = false) →
      parseLines (pre ++ splitlines c2Fixture) false =
        [⟨"en", ", srt  English"⟩, ⟨"fr", ", srt  French"⟩] := by
  constructor
  · decide
  · intro pre h
    rw [parseLines_skip pre _ h]
    decide

/-- C2 (amended) witness: a concrete pre-marker line produces no entry. -/
theorem c2_fixture_parse_witness :
    parseLines (["[youtube] extracting video information"] ++ splitlines c2Fixture) false =
      [⟨"en", ", srt  English"⟩, ⟨"fr", ", srt  French"⟩] :=
  c2_fixture_parse.2 ["[youtube] extracting video information"] (by decide)

/-- C4: the SRT cleanup maps the two-block fixture to exactly
`Hello\nWorld\n`: sequence numbers and timestamp lines removed, the
blank-line run collapsed. -/
theorem c4_srt_cleanup_fixture :
    cleanSrt "1\n00:00:01,000 --> 00:00:02,000\nHello\n\n2\n00:00:02,500 --> 00:00:03,000\nWorld\n" =
      "Hello\nWorld\n" := by
  decide

/-- C5: the SRT cleanup is idempotent on already-clean text (no
sequence-number/timestamp block and no blank-line run matches anywhere):
applying it twice yields the same result as applying it once. -/
theorem c5_cleanup_idempotent (s : String) (h : IsCleanSrt s = true) :
    cleanSrt (cleanSrt s) = cleanSrt s := by
  rw [cleanSrt_clean_fix s h]
  exact cleanSrt_clean_fix s h

/-- C5 witness: a concrete already-clean string. -/
theorem c5_cleanup_idempotent_witness :
    IsCleanSrt "Hello\nWorld\n" = true ∧
    cleanSrt (cleanSrt "Hello\nWorld\n") = cleanSrt "Hello\nWorld\n" :=
  ⟨by decide, c5_cleanup_idempotent "Hello\nWorld\n" (by decide)⟩

/-- C6: the upload-date reformat maps `20240115` to `2024-01-15`, passes
every string of length 4 or 10 through unchanged, and more generally
applies the hyphen-inserting reformat only to strings of exactly 8
characters. -/
theorem c6_upload_date (s : String) :
    formatUploadDate "20240115" = "2024-01-15" ∧
    (s.length = 4 ∨ s.length = 10 → formatUploadDate s = s) ∧
    (s.length ≠ 8 → formatUploadDate s = s) := by
  refine ⟨by decide, fun h => ?_, fun h => ?_⟩
  · rw [formatUploadDate, if_neg (by omega)]
  · rw [formatUploadDate, if_neg h]

/-- C6 witness: concrete 4- and 10-character inputs pass through. -/
theorem c6_upload_date_witness :
    formatUploadDate "2024" = "2024" ∧ formatUploadDate "2024-01-15" = "2024-01-15" :=
  ⟨(c6_upload_date "2024").2.1 (Or.inl (by decide)),
    (c6_upload_date "2024-01-15").2.1 (Or.inr (by decide))⟩

/-- C3: when the listing output has no marker line at all, or has a
(first) marker line followed only by blank lines, the parse yields no
entries and the operation returns exactly the no-subtitles message. -/
theorem c3_no_subtitles (env : Env) (url output : String)
    (hrun : env.run (listSubsArgs url) none = .ok output) :
    ((∀ l ∈ splitlines output, hasMarker l = false) →
      parseLangs output = [] ∧
      (list_subtitle_languages true env url).1 = "No subtitles found for this video.") ∧
    (∀ pre m post, splitlines output = pre ++ m :: post →
      (∀ l ∈ pre, hasMarker l = false) → hasMarker m = true →
      (∀ l ∈ post, pyStrip l = "") →
      parseLangs output = [] ∧
      (list_subtitle_languages true env url).1 = "No subtitles found for this video.") := by
  have hfac : parseLangs output = [] →
      (list_subtitle_languages true env url).1 = "No subtitles found for this video." := by
    intro hempty
    simp [list_subtitle_languages, hrun, hempty]
  constructor
  · intro h
    have hp : parseLangs output = [] := by
      rw [parseLangs]
      have h2 := parseLines_skip (splitlines output) [] h
      simpa using h2
    exact ⟨hp, hfac hp⟩
  · intro pre m post hsplit hpre hm hpost
    have hp : parseLangs output = [] := by
      rw [parseLangs, hsplit, parseLines_skip pre _ hpre]
      simp only [parseLines, hm, if_true]
      rw [parseLines_true, filterMap_blank post hpost]
    exact ⟨hp, hfac hp⟩

/-- C3 witness: a concrete output with no marker line. -/
theorem c3_no_subtitles_witness :
    parseLangs "nothing here" = [] ∧
    (list_subtitle_languages true (constEnv "nothing here") "u").1 =
      "No subtitles found for this video." :=
  (c3_no_subtitles (constEnv "nothing here") "u" "nothing here" rfl).1 (by decide)

/-- C7: when the info output strips and splits to fewer than five lines,
`get_video_info` returns (never raises) the diagnostic message with the
raw output embedded. -/
theorem c7_short_info (env : Env) (url output : String)
    (hrun : env.run (infoArgs url) none = .ok output)
    (hshort : (pySplitOn '\n' (pyStrip output)).length < 5) :
    (get_video_info true env url).1 = "Couldn't parse video information: " ++ output := by
  have hparse : getVideoInfoParse output = "Couldn't parse video information: " ++ output := by
    rw [getVideoInfoParse]
    rcases hl : pySplitOn '\n' (pyStrip output) with _ | ⟨a, _ | ⟨b, _ | ⟨c, _ | ⟨d, _ | ⟨e, rest⟩⟩⟩⟩⟩
    · rfl
    · rfl
    · rfl
    · rfl
    · rfl
    · rw [hl] at hshort
      simp only [List.length_cons] at hshort
      omega
  simp [get_video_info, hrun, hparse]

/-- C7 witness: a concrete two-line output. -/
theorem c7_short_info_witness :
    (get_video_info true (constEnv "a\nb") "u").1 =
      "Couldn't parse video information: " ++ "a\nb" :=
  c7_short_info (constEnv "a\nb") "u" "a\nb" rfl (by decide)

/-- C8: when the download invocation succeeds but the expected subtitle
file is absent, `download_subtitles` returns exactly the
no-subtitles-for-language message as a normal result, and for every
environment (every exit path: success, missing file, or a caught
invocation failure) the side-effect trace starts with the creation of the
scratch directory and ends with its removal. -/
theorem c8_missing_file_and_cleanup (env : Env) (url lang output : String)
    (hrun : env.run (dlArgs (os_path_join env.tempDir "subtitles") url lang)
      (some env.tempDir) = .ok output)
    (hfile : env.fileExists
      (os_path_join env.tempDir (subtitleFileName env.tempDir lang)) = false) :
    (download_subtitles true env url lang).1 = "No subtitles found for language: " ++ lang ∧
    ∀ (e2 : Env) (u2 l2 : String),
      (download_subtitles true e2 u2 l2).2.head? = some (Event.mkTempDir e2.tempDir) ∧
      (download_subtitles true e2 u2 l2).2.getLast? = some (Event.rmTempDir e2.tempDir) := by
  constructor
  · simp [download_subtitles, download_body, hrun, hfile]
  · intro e2 u2 l2
    constructor
    · simp [download_subtitles]
    · simp only [download_subtitles, Bool.not_true, Bool.false_eq_true, if_false]
      rw [List.getLast?_concat]

/-- C8 witness: a concrete environment with a successful run and an empty
scratch filesystem. -/
theorem c8_missing_file_and_cleanup_witness :
    (download_subtitles true (constEnv "") "u" "en").1 =
      "No subtitles found for language: " ++ "en" ∧
    (download_subtitles true (constEnv "") "u" "en").2.getLast? =
      some (Event.rmTempDir (constEnv "").tempDir) :=
  ⟨(c8_missing_file_and_cleanup (constEnv "") "u" "en" "" rfl rfl).1,
    ((c8_missing_file_and_cleanup (constEnv "") "u" "en" "" rfl rfl).2
      (constEnv "") "u" "en").2⟩

/-- C9: the in-subtitles-section flag is monotone. With the flag set, the
rest of the parse examines every line — it is a `filterMap` over the
whole remainder, so later non-blank lines (including header or footer
lines of later sections) are matched against the pattern and can
contribute entries; and as soon as any marker line is seen, everything
after it is parsed that way regardless of the starting flag. -/
theorem c9_flag_monotone :
    (∀ lines : List String, parseLines lines true = lines.filterMap entryOfLine) ∧
    ∀ (b : Bool) (pre : List String) (m : String) (post : List String),
      hasMarker m = true →
      parseLines (pre ++ m :: post) b =
        parseLines (pre ++ [m]) b ++ post.filterMap entryOfLine := by
  refine ⟨parseLines_true, ?_⟩
  intro b pre m post hm
  induction pre generalizing b with
  | nil =>
    simp [parseLines, hm, parseLines_true]
  | cons l pre ih =>
    simp only [List.cons_append]
    by_cases hl : hasMarker l = true
    · simp only [parseLines, hl, if_true]
      rw [parseLines_true, parseLines_true, List.filterMap_append]
      have hnone : entryOfLine m = none := by simp [entryOfLine, hm]
      simp [hnone]
    · have hl2 : hasMarker l = false := by simpa using hl
      cases hcond : (b && !(pyStrip l).isEmpty) with
      | false => simp [parseLines, hl2, hcond, ih]
      | true =>
        cases hp : parseLangLine l with
        | some mm => simp [parseLines, hl2, hcond, hp, ih]
        | none => simp [parseLines, hl2, hcond, hp, ih]

/-- C9 witness: a concrete later "section header" line after the marker
still contributes. -/
theorem c9_flag_monotone_witness :
    parseLines (["x"] ++ "Available subtitles for video:" ::
        ["en  English", "Later section header"]) false =
      parseLines (["x"] ++ ["Available subtitles for video:"]) false ++
        ["en  English", "Later section header"].filterMap entryOfLine :=
  c9_flag_monotone.2 false ["x"] "Available subtitles for video:"
    ["en  English", "Later section header"] (by decide)

/-- C10: with five or more output lines, `get_video_info` builds its
result from exactly the first five lines in order (title, duration,
channel, reformatted upload date, views) and discards all later lines;
concretely, an embedded newline in the title shifts every later field by
one line. -/
theorem c10_first_five_lines (env : Env) (url output : String)
    (hrun : env.run (infoArgs url) none = .ok output) :
    (∀ t d c u v rest, pySplitOn '\n' (pyStrip output) = t :: d :: c :: u :: v :: rest →
      (get_video_info true env url).1 =
        "Title: " ++ t ++ "\nDuration: " ++ d ++ "\nChannel: " ++ c ++
          "\nUpload Date: " ++ formatUploadDate u ++ "\nViews: " ++ v) ∧
    getVideoInfoParse "A\nB\n10:00\nChan\n20240115\n42" =
      "Title: A\nDuration: B\nChannel: 10:00\nUpload Date: Chan\nViews: 20240115" := by
  constructor
  · intro t d c u v rest hl
    have hparse : getVideoInfoParse output =
        "Title: " ++ t ++ "\nDuration: " ++ d ++ "\nChannel: " ++ c ++
          "\nUpload Date: " ++ formatUploadDate u ++ "\nViews: " ++ v := by
      rw [getVideoInfoParse, hl]
    simp [get_video_info, hrun, hparse]
  · decide

/-- C10 witness: the shifted-fields fixture through the operation. -/
theorem c10_first_five_lines_witness :
    (get_video_info true (constEnv "A\nB\n10:00\nChan\n20240115\n42") "u").1 =
      "Title: " ++ "A" ++ "\nDuration: " ++ "B" ++ "\nChannel: " ++ "10:00" ++
        "\nUpload Date: " ++ formatUploadDate "Chan" ++ "\nViews: " ++ "20240115" :=
  (c10_first_five_lines (constEnv "A\nB\n10:00\nChan\n20240115\n42") "u"
      "A\nB\n10:00\nChan\n20240115\n42" rfl).1
    "A" "B" "10:00" "Chan" "20240115" ["42"] (by decide)

end YoutubeSubtitles
